import Mathlib

/-!
Verification of the access-control and session-lifecycle subsystem of the
collaborative-dev-platform backend: JWT issuance and verification
(backend/src/config/auth.js), the authentication and role middleware
(backend/src/middleware/auth.js), the CSRF guard (csrf middleware file),
and the auth route handlers (register/login/logout/refresh).

The JavaScript source is shallowly embedded: each route handler or
middleware becomes a pure Lean function from its inputs (request pieces,
database snapshot, cache snapshot, current time in seconds) to its
HTTP response and updated state.  The external `jsonwebtoken` library is
modelled by a token record carrying the claims it was signed over, the
secret used, and the expiry; the external `bcrypt` library by a tagged
hash; the external Redis store by an association list with overwrite
semantics.
-/

namespace CollabDev

/-- The identity claim set placed in every JWT payload
(config/auth.js `generateTokenPair`, routes `generateTokens` call sites). -/
structure Claims where
  userId : Nat
  email : String
  username : String
deriving DecidableEq

/-- Model of a keyed MAC over (claims, expiry): forging a signature for a
given claim set, expiry and secret is only possible by building exactly
this record with that secret. -/
structure Signature where
  secret : String
  signedClaims : Claims
  signedExp : Nat
deriving DecidableEq

/-- Model of a signed JWT: payload, expiry timestamp (seconds), signature. -/
structure Token where
  payload : Claims
  exp : Nat
  sig : Signature
deriving DecidableEq

/-- Model of `jwt.sign(payload, secret, \x7bexpiresIn\x7d)` with the absolute expiry
`exp` already computed from the current time. -/
def jwtSign (payload : Claims) (secret : String) (exp : Nat) : Token :=
  { payload := payload, exp := exp, sig := ⟨secret, payload, exp⟩ }

/-- The two error kinds `jsonwebtoken` distinguishes: `JsonWebTokenError`
(bad signature / malformed) and `TokenExpiredError` (valid signature,
past expiry). -/
inductive JwtError where
  | jsonWebTokenError
  | tokenExpiredError
deriving DecidableEq

/-- Model of `jwt.verify(token, secret)` at time `now`: the signature is checked
first; only a token whose signature verifies can fail with
`TokenExpiredError` (this matches the jsonwebtoken library order). -/
def jwtVerify (t : Token) (secret : String) (now : Nat) : Except JwtError Claims :=
  if t.sig = ⟨secret, t.payload, t.exp⟩ then
    if now < t.exp then .ok t.payload
    else .error .tokenExpiredError
  else .error .jsonWebTokenError

/-- JWT configuration (config/auth.js `jwtConfig`), with the in-source
default secrets and the default windows 15m / 7d in seconds. -/
structure JwtConfig where
  secret : String
  refreshSecret : String
  expiresInSeconds : Nat
  refreshExpiresInSeconds : Nat
deriving DecidableEq

def jwtConfig : JwtConfig :=
  { secret := "your-secret-key-change-in-production"
  , refreshSecret := "your-refresh-secret-change-in-production"
  , expiresInSeconds := 15 * 60
  , refreshExpiresInSeconds := 7 * 24 * 60 * 60 }

/-- config/auth.js `generateAccessToken`. -/
def generateAccessToken (payload : Claims) (now : Nat) : Token :=
  jwtSign payload jwtConfig.secret (now + jwtConfig.expiresInSeconds)

/-- config/auth.js `generateRefreshToken`. -/
def generateRefreshToken (payload : Claims) (now : Nat) : Token :=
  jwtSign payload jwtConfig.refreshSecret (now + jwtConfig.refreshExpiresInSeconds)

/-- config/auth.js `verifyAccessToken`: wraps `jwt.verify` with the access
secret, collapsing any failure into one error message. -/
def verifyAccessToken (t : Token) (now : Nat) : Except String Claims :=
  match jwtVerify t jwtConfig.secret now with
  | .ok c => .ok c
  | .error _ => .error "Invalid or expired token"

/-- config/auth.js `verifyRefreshToken`. -/
def verifyRefreshToken (t : Token) (now : Nat) : Except String Claims :=
  match jwtVerify t jwtConfig.refreshSecret now with
  | .ok c => .ok c
  | .error _ => .error "Invalid or expired refresh token"

structure TokenPair where
  accessToken : Token
  refreshToken : Token
deriving DecidableEq

/-- config/auth.js `generateTokenPair(userId, email, username)`. -/
def generateTokenPair (userId : Nat) (email username : String) (now : Nat) : TokenPair :=
  let payload : Claims := ⟨userId, email, username⟩
  { accessToken := generateAccessToken payload now
  , refreshToken := generateRefreshToken payload now }

/-- Modelled from the spec: the auth routes import `generateTokens` from the
token-issuer config, a helper absent from src/ (the config file present in
src/ exports `generateTokenPair` instead); per spec section 4.1 it issues
the signed access/refresh pair for the identity claim set. -/
def generateTokens (payload : Claims) (now : Nat) : TokenPair :=
  { accessToken := generateAccessToken payload now
  , refreshToken := generateRefreshToken payload now }

/-- The JSON error/success envelope actually sent: HTTP status, the
`success` flag, the `message`, and the optional `code` field used by the
CSRF guard. -/
structure Response where
  status : Nat
  success : Bool
  message : String
  code : Option String
deriving DecidableEq

/-- The substring after "Bearer " in the Authorization header: either it
parses as a JWT or it is garbage that makes `jwt.verify` throw
`JsonWebTokenError`. -/
inductive BearerContent where
  | jwt (t : Token)
  | malformed (s : String)
deriving DecidableEq

/-- An Authorization header value: `bearer` models a value passing the
`startsWith("Bearer ")` check with the content after `substring(7)`;
`nonBearer` any other value. -/
inductive AuthHeader where
  | bearer (content : BearerContent)
  | nonBearer (raw : String)
deriving DecidableEq

/-- Application of `jwt.verify` to the extracted bearer content. -/
def jwtVerifyBearer (c : BearerContent) (secret : String) (now : Nat) :
    Except JwtError Claims :=
  match c with
  | .malformed _ => .error .jsonWebTokenError
  | .jwt t => jwtVerify t secret now

/-- A row of the `users` table (the columns the auth paths touch). -/
structure UserRow where
  userId : Nat
  username : String
  email : String
  passwordHash : String
  displayName : String
  avatarUrl : String
  lastLogin : Option Nat
deriving DecidableEq

/-- A row of the `projects` table (the columns the role check touches). -/
structure ProjectRow where
  projectId : Nat
  ownerId : Nat
deriving DecidableEq

/-- A row of the `project_collaborators` table;
`acceptedAt = none` models `accepted_at IS NULL` (a pending invite). -/
structure CollabRow where
  projectId : Nat
  userId : Nat
  role : String
  acceptedAt : Option Nat
deriving DecidableEq

/-- Snapshot of the relational database as the auth paths see it. -/
structure Db where
  users : List UserRow
  projects : List ProjectRow
  collaborators : List CollabRow
deriving DecidableEq

/-- Model of `bcrypt.hash(password, SALT_ROUNDS)`: an opaque tag of the
password (external library; collision-freeness is assumed). -/
def bcryptHash (password : String) : String :=
  "bcrypt$" ++ password

/-- Model of `bcrypt.compare(password, hash)`. -/
def bcryptCompare (password hash : String) : Bool :=
  hash == bcryptHash password

/-- Query `SELECT ... FROM users WHERE user_id = $1` (first row). -/
def findUserById (db : Db) (uid : Nat) : Option UserRow :=
  db.users.find? (fun u => u.userId == uid)

/-- Query `SELECT ... FROM users WHERE email = $1` (first row). -/
def findUserByEmail (db : Db) (email : String) : Option UserRow :=
  db.users.find? (fun u => u.email == email)

/-- Result of a middleware: either pass control to the handler (`next`)
with the attached request fields, or short-circuit with a response. -/
inductive AuthOutcome where
  | proceed (userId : Nat) (username email displayName : String)
  | respond (r : Response)
deriving DecidableEq

/-- middleware/auth.js `authenticateToken`: extract the bearer token,
`jwt.verify` it against `JWT_SECRET`, re-confirm the user row exists, and
attach the identity; the catch block maps `JsonWebTokenError` to
401 "Invalid token" and `TokenExpiredError` to 401 "Token expired". -/
def authenticateToken (db : Db) (auth : Option AuthHeader) (now : Nat) : AuthOutcome :=
  match auth with
  | none => .respond ⟨401, false, "Access token required", none⟩
  | some (.nonBearer _) => .respond ⟨401, false, "Access token required", none⟩
  | some (.bearer c) =>
    match jwtVerifyBearer c jwtConfig.secret now with
    | .error .jsonWebTokenError => .respond ⟨401, false, "Invalid token", none⟩
    | .error .tokenExpiredError => .respond ⟨401, false, "Token expired", none⟩
    | .ok decoded =>
      match findUserById db decoded.userId with
      | none => .respond ⟨401, false, "User not found", none⟩
      | some u => .proceed decoded.userId decoded.username decoded.email u.displayName

/-- Result of the role middleware: pass through with `req.projectRole`
set, or short-circuit with a response. -/
inductive RoleOutcome where
  | proceed (projectRole : String)
  | respond (r : Response)
deriving DecidableEq

/-- Query `SELECT role FROM project_collaborators WHERE project_id = $1 AND
user_id = $2 AND accepted_at IS NOT NULL` (all rows, in table order). -/
def findAcceptedCollabRows (db : Db) (pid uid : Nat) : List CollabRow :=
  db.collaborators.filter
    (fun r => r.projectId == pid && r.userId == uid && r.acceptedAt.isSome)

/-- Query `SELECT owner_id FROM projects WHERE project_id = $1` (all rows). -/
def findProjectRows (db : Db) (pid : Nat) : List ProjectRow :=
  db.projects.filter (fun p => p.projectId == pid)

/-- middleware/auth.js `requireProjectRole(allowedRoles)`: missing project
id param gives 400; a project with no row gives 404; then
`userRole = result.rows.length > 0 ? result.rows[0].role
           : (isOwner ? "owner" : null)`
and a null or non-allow-listed role gives 403. -/
def requireProjectRole (allowedRoles : List String) (db : Db) (userId : Nat)
    (projectIdParam : Option Nat) : RoleOutcome :=
  match projectIdParam with
  | none => .respond ⟨400, false, "Project ID required", none⟩
  | some projectId =>
    let result := findAcceptedCollabRows db projectId userId
    match findProjectRows db projectId with
    | [] => .respond ⟨404, false, "Project not found", none⟩
    | ownerRow :: _ =>
      let isOwner := ownerRow.ownerId == userId
      let userRole : Option String :=
        match result with
        | row :: _ => some row.role
        | [] => if isOwner then some "owner" else none
      match userRole with
      | none => .respond ⟨403, false, "Insufficient permissions for this project", none⟩
      | some role =>
        if allowedRoles.contains role then .proceed role
        else .respond ⟨403, false, "Insufficient permissions for this project", none⟩

/-- Result of the CSRF guard middleware. -/
inductive CsrfOutcome where
  | next
  | respond (r : Response)
deriving DecidableEq

/-- JavaScript truthiness of a possibly-absent string request field:
`undefined` and the empty string are falsy. -/
def truthy : Option String → Bool
  | none => false
  | some s => s != ""

/-- Whether the second character list begins the first (kernel-reducible
model of the string `startsWith` test). -/
def charListBeginsWith : List Char → List Char → Bool
  | _, [] => true
  | [], _ :: _ => false
  | c :: cs, p :: ps => c == p && charListBeginsWith cs ps

/-- Model of the string method `startsWith` on the underlying character sequences. -/
def strStartsWith (s pre : String) : Bool :=
  charListBeginsWith s.data pre.data

/-- Check `authHeader && authHeader.startsWith("Bearer ")` on the raw
Authorization header string. -/
def isBearerHeader : Option String → Bool
  | none => false
  | some s => strStartsWith s "Bearer "

def safeMethods : List String := ["GET", "HEAD", "OPTIONS"]

/-- csrf middleware `csrfProtection` (plain double-submit variant): skip
safe methods, skip bearer-authenticated requests, then require both the
`XSRF-TOKEN` cookie and the `X-XSRF-TOKEN` header to be truthy
(403 `CSRF_MISSING` otherwise) and strictly equal
(403 `CSRF_INVALID` otherwise). -/
def csrfProtection (method : String) (authHeader cookieToken headerToken : Option String) :
    CsrfOutcome :=
  if safeMethods.contains method then .next
  else if isBearerHeader authHeader then .next
  else if !(truthy cookieToken) || !(truthy headerToken) then
    .respond ⟨403, false, "CSRF token missing", some "CSRF_MISSING"⟩
  else if cookieToken ≠ headerToken then
    .respond ⟨403, false, "CSRF token mismatch", some "CSRF_INVALID"⟩
  else .next

/-- Modelled from the spec: the Redis session cache behind the
`setRedis`/`getRedis`/`deleteRedis` helpers the auth routes import — the
helper module is absent from src/ (the Redis config present in src/
exports differently named wrappers over the external client).  Per spec
section 4.2 it is an external key-value store with atomic per-key
overwrite semantics, modelled as an association list keyed by string. -/
abbrev Cache := List (String × Token)

/-- Modelled from the spec: `put(userId, refreshToken, ttlSeconds)` — a
`put` for a key that already has an entry replaces it entirely.  The TTL
only bounds how long the entry outlives the token and is not part of the
lookup semantics modelled here. -/
def setRedis (cache : Cache) (key : String) (value : Token) (ttlSeconds : Nat) : Cache :=
  (key, value) :: cache.filter (fun e => !(e.1 == key))

/-- Modelled from the spec: `get(userId) -> refreshToken|absent`. -/
def getRedis (cache : Cache) (key : String) : Option Token :=
  (cache.find? (fun e => e.1 == key)).map (fun e => e.2)

/-- Modelled from the spec: `delete(userId)`. -/
def deleteRedis (cache : Cache) (key : String) : Cache :=
  cache.filter (fun e => !(e.1 == key))

/-- The cache key `refresh_token:<userId>` used by the auth routes. -/
def refreshKey (userId : Nat) : String :=
  "refresh_token:" ++ toString userId

/-- routes `REFRESH_TOKEN_EXPIRY = 7 * 24 * 60 * 60` seconds. -/
def REFRESH_TOKEN_EXPIRY : Nat := 7 * 24 * 60 * 60

/-- Result of the login handler: response, optional issued pair, and the
database and cache after the request. -/
structure LoginResult where
  response : Response
  data : Option TokenPair
  db : Db
  cache : Cache
deriving DecidableEq

/-- Query `UPDATE users SET last_login = NOW() WHERE user_id = $1`. -/
def updateLastLogin (db : Db) (uid : Nat) (now : Nat) : Db :=
  { db with
    users := db.users.map
      (fun u => if u.userId == uid then { u with lastLogin := some now } else u) }

/-- routes POST /login: find the user by email (401 "Invalid email or
password" if absent), `bcrypt.compare` the password (same 401 response if
wrong), then issue tokens, store the refresh token under
`refresh_token:<userId>`, and update `last_login`. -/
def loginHandler (db : Db) (cache : Cache) (email password : String) (now : Nat) :
    LoginResult :=
  match findUserByEmail db email with
  | none => ⟨⟨401, false, "Invalid email or password", none⟩, none, db, cache⟩
  | some user =>
    if !(bcryptCompare password user.passwordHash) then
      ⟨⟨401, false, "Invalid email or password", none⟩, none, db, cache⟩
    else
      let pair := generateTokens ⟨user.userId, user.email, user.username⟩ now
      let cache2 := setRedis cache (refreshKey user.userId) pair.refreshToken
        REFRESH_TOKEN_EXPIRY
      let db2 := updateLastLogin db user.userId now
      ⟨⟨200, true, "Login successful", none⟩, some pair, db2, cache2⟩

/-- Result of the logout handler: response and the cache afterwards. -/
structure LogoutResult where
  response : Response
  cache : Cache
deriving DecidableEq

/-- routes POST /logout: missing/non-bearer header gives 401 "No token
provided"; then `jwt.verify(token, JWT_SECRET)` — any verify failure is
caught by the catch-all of the handler, which responds 500 "Failed to logout";
on success the `refresh_token:<userId>` cache entry is deleted. -/
def logoutHandler (cache : Cache) (auth : Option AuthHeader) (now : Nat) : LogoutResult :=
  match auth with
  | none => ⟨⟨401, false, "No token provided", none⟩, cache⟩
  | some (.nonBearer _) => ⟨⟨401, false, "No token provided", none⟩, cache⟩
  | some (.bearer c) =>
    match jwtVerifyBearer c jwtConfig.secret now with
    | .error _ => ⟨⟨500, false, "Failed to logout", none⟩, cache⟩
    | .ok decoded =>
      ⟨⟨200, true, "Logout successful", none⟩, deleteRedis cache (refreshKey decoded.userId)⟩

/-- Result of the refresh handler: response, optional new pair, the cache
afterwards. -/
structure RefreshResult where
  response : Response
  data : Option TokenPair
  cache : Cache
deriving DecidableEq

/-- routes POST /refresh: a missing (falsy) body token gives 400;
`jwt.verify(refreshToken, JWT_REFRESH_SECRET)` failure is caught and gives
401 "Invalid or expired refresh token"; then the stored token under
`refresh_token:<decoded.userId>` must exist and equal the submitted token
(same 401 otherwise); on success new tokens are issued and the cache entry
is overwritten with the new refresh token. -/
def refreshHandler (cache : Cache) (body : Option BearerContent) (now : Nat) :
    RefreshResult :=
  match body with
  | none => ⟨⟨400, false, "Refresh token is required", none⟩, none, cache⟩
  | some (.malformed _) =>
    ⟨⟨401, false, "Invalid or expired refresh token", none⟩, none, cache⟩
  | some (.jwt t) =>
    match jwtVerify t jwtConfig.refreshSecret now with
    | .error _ => ⟨⟨401, false, "Invalid or expired refresh token", none⟩, none, cache⟩
    | .ok decoded =>
      match getRedis cache (refreshKey decoded.userId) with
      | none => ⟨⟨401, false, "Invalid or expired refresh token", none⟩, none, cache⟩
      | some stored =>
        if stored ≠ t then
          ⟨⟨401, false, "Invalid or expired refresh token", none⟩, none, cache⟩
        else
          let pair := generateTokens ⟨decoded.userId, decoded.email, decoded.username⟩ now
          ⟨⟨200, true, "Token refreshed successfully", none⟩, some pair,
            setRedis cache (refreshKey decoded.userId) pair.refreshToken
              REFRESH_TOKEN_EXPIRY⟩

/-! ### Helper lemmas -/

theorem filter_pending_nil (l : List CollabRow) (pid uid : Nat)
    (h : ∀ r ∈ l, r.projectId = pid → r.userId = uid → r.acceptedAt = none) :
    l.filter (fun r => r.projectId == pid && r.userId == uid && r.acceptedAt.isSome) = [] := by
  induction l with
  | nil => rfl
  | cons r rest ih =>
    rw [List.filter_cons]
    have hrest := ih (fun x hx h1 h2 => h x (List.mem_cons_of_mem _ hx) h1 h2)
    by_cases h1 : r.projectId = pid
    · by_cases h2 : r.userId = uid
      · have hnone : r.acceptedAt = none := h r (List.mem_cons_self _ _) h1 h2
        simp [h1, h2, hnone, hrest]
      · simp [h2, hrest]
    · simp [h1, hrest]

theorem getRedis_setRedis_self (cache : Cache) (k : String) (v : Token) (ttl : Nat) :
    getRedis (setRedis cache k v ttl) k = some v := by
  simp [getRedis, setRedis]

theorem getRedis_deleteRedis_self (cache : Cache) (k : String) :
    getRedis (deleteRedis cache k) k = none := by
  unfold getRedis deleteRedis
  induction cache with
  | nil => rfl
  | cons e rest ih =>
    rw [List.filter_cons]
    by_cases h : (e.1 == k) = true
    · simp only [h, Bool.not_true, Bool.false_eq_true, if_neg, ite_false]
      exact ih
    · simp only [h, Bool.not_false, if_pos]
      rw [List.find?_cons_of_neg _ (by simp [h])]
      exact ih

theorem jwtVerify_ok (t : Token) (secret : String) (now : Nat)
    (hsig : t.sig = ⟨secret, t.payload, t.exp⟩) (hexp : now < t.exp) :
    jwtVerify t secret now = .ok t.payload := by
  simp [jwtVerify, hsig, hexp]

/-! ### Claims about the role resolver -/

/-- Database with one project (id 1, owned by user 10) and one stale
accepted collaboration row giving owner 10 the role `editor`. -/
def dbStaleOwnerRow : Db :=
  { users := []
  , projects := [{ projectId := 1, ownerId := 10 }]
  , collaborators := [{ projectId := 1, userId := 10, role := "editor", acceptedAt := some 5 }] }

/-- C1 counterexample: user 10 owns project 1 and a stale accepted
collaboration row for (1, 10) with role `editor` exists, yet
`requireProjectRole` does NOT resolve the effective role to `owner`: the
allow-list `["owner"]` rejects the owner with 403, and with
`["owner", "editor"]` the resolved role is the `editor` of the stale row —
the collaboration row wins over ownership, not the other way round. -/
theorem C1_counterexample :
    requireProjectRole ["owner"] dbStaleOwnerRow 10 (some 1) =
      .respond ⟨403, false, "Insufficient permissions for this project", none⟩ ∧
    requireProjectRole ["owner", "editor"] dbStaleOwnerRow 10 (some 1) = .proceed "editor" := by
  constructor <;> rfl

/-- C1 (amended): when an accepted collaboration row exists for
(project, user), `requireProjectRole` resolves the effective role to that
role of that row even when the user owns the project — the collaboration row is
consulted first and wins; ownership fills in `owner` only when no
accepted row exists. -/
theorem C1_amended_collab_row_wins (allowed : List String) (db : Db) (uid pid : Nat)
    (proj : ProjectRow) (prest : List ProjectRow) (row : CollabRow) (crest : List CollabRow)
    (hp : findProjectRows db pid = proj :: prest)
    (hOwner : proj.ownerId = uid)
    (hc : findAcceptedCollabRows db pid uid = row :: crest) :
    requireProjectRole allowed db uid (some pid) =
      (if allowed.contains row.role then .proceed row.role
       else .respond ⟨403, false, "Insufficient permissions for this project", none⟩) := by
  simp only [requireProjectRole, hp, hc]

/-- Witness for C1 (amended) at the concrete stale-row database. -/
theorem C1_amended_collab_row_wins_witness :
    requireProjectRole ["owner", "editor"] dbStaleOwnerRow 10 (some 1) = .proceed "editor" := by
  have h := C1_amended_collab_row_wins ["owner", "editor"] dbStaleOwnerRow 10 1
    { projectId := 1, ownerId := 10 } []
    { projectId := 1, userId := 10, role := "editor", acceptedAt := some 5 } []
    rfl rfl rfl
  simpa using h

/-- C9: a user whose only relationship to an existing project is a pending
(`accepted_at IS NULL`) collaboration row gets no role from
`requireProjectRole` for any allow-list: the accepted-only lookup excludes
the pending row, so the request is denied with 403. -/
theorem C9_pending_collaboration_denied (allowed : List String) (db : Db) (uid pid : Nat)
    (proj : ProjectRow) (prest : List ProjectRow)
    (hp : findProjectRows db pid = proj :: prest)
    (hNotOwner : proj.ownerId ≠ uid)
    (hPending : ∀ r ∈ db.collaborators, r.projectId = pid → r.userId = uid →
      r.acceptedAt = none) :
    requireProjectRole allowed db uid (some pid) =
      .respond ⟨403, false, "Insufficient permissions for this project", none⟩ := by
  have hnil : findAcceptedCollabRows db pid uid = [] :=
    filter_pending_nil db.collaborators pid uid hPending
  simp only [requireProjectRole, hp, findAcceptedCollabRows] at hnil ⊢
  simp [hnil, hNotOwner]

/-- Database with one project (id 1, owned by user 10) and a pending
invite for user 20 as viewer. -/
def dbPendingInvite : Db :=
  { users := []
  , projects := [{ projectId := 1, ownerId := 10 }]
  , collaborators := [{ projectId := 1, userId := 20, role := "viewer", acceptedAt := none }] }

/-- Witness for C9: the pending viewer invite for user 20 on project 1
denies a viewer-level check with 403. -/
theorem C9_pending_collaboration_denied_witness :
    requireProjectRole ["viewer"] dbPendingInvite 20 (some 1) =
      .respond ⟨403, false, "Insufficient permissions for this project", none⟩ := by
  apply C9_pending_collaboration_denied ["viewer"] dbPendingInvite 20 1
    { projectId := 1, ownerId := 10 } [] rfl (by decide)
  intro r hr h1 h2
  simp only [dbPendingInvite, List.mem_singleton] at hr
  subst hr
  rfl

/-! ### Claims about the session cache and the refresh / logout flows -/

/-- C2: at most one refresh token is valid per user — the routes store the
refresh token with `setRedis` under the single key `refresh_token:<uid>`,
so after storing `tokenA` then `tokenB` for the same user only `tokenB`
is retrievable, a refresh submitting `tokenA` is rejected with 401 even
though `tokenA` still carries a valid unexpired signature, and a refresh
submitting `tokenB` passes validation. -/
theorem C2_single_valid_refresh_token (cache : Cache) (uid : Nat) (tA tB : Token) (now : Nat)
    (hsA : tA.sig = ⟨jwtConfig.refreshSecret, tA.payload, tA.exp⟩)
    (heA : now < tA.exp)
    (hsB : tB.sig = ⟨jwtConfig.refreshSecret, tB.payload, tB.exp⟩)
    (heB : now < tB.exp)
    (huA : tA.payload.userId = uid)
    (huB : tB.payload.userId = uid)
    (hne : tA ≠ tB) :
    getRedis (setRedis (setRedis cache (refreshKey uid) tA REFRESH_TOKEN_EXPIRY)
        (refreshKey uid) tB REFRESH_TOKEN_EXPIRY) (refreshKey uid) = some tB ∧
    (refreshHandler (setRedis (setRedis cache (refreshKey uid) tA REFRESH_TOKEN_EXPIRY)
        (refreshKey uid) tB REFRESH_TOKEN_EXPIRY) (some (.jwt tA)) now).response =
      ⟨401, false, "Invalid or expired refresh token", none⟩ ∧
    (refreshHandler (setRedis (setRedis cache (refreshKey uid) tA REFRESH_TOKEN_EXPIRY)
        (refreshKey uid) tB REFRESH_TOKEN_EXPIRY) (some (.jwt tB)) now).response =
      ⟨200, true, "Token refreshed successfully", none⟩ := by
  have hget := getRedis_setRedis_self
    (setRedis cache (refreshKey uid) tA REFRESH_TOKEN_EXPIRY)
    (refreshKey uid) tB REFRESH_TOKEN_EXPIRY
  refine ⟨hget, ?_, ?_⟩
  · simp only [refreshHandler, jwtVerify_ok tA _ now hsA heA, huA, hget]
    simp [Ne.symm hne]
  · simp only [refreshHandler, jwtVerify_ok tB _ now hsB heB, huB, hget]
    simp

/-- The identity claim used in concrete witnesses. -/
def claimsAlice : Claims := ⟨7, "alice@x.com", "alice"⟩

/-- A refresh token for user 7 expiring at t=100. -/
def tokA : Token := jwtSign claimsAlice jwtConfig.refreshSecret 100

/-- A second refresh token for user 7 expiring at t=200. -/
def tokB : Token := jwtSign claimsAlice jwtConfig.refreshSecret 200

/-- The cache after storing `tokA` then `tokB` for user 7. -/
def cacheAB : Cache :=
  setRedis (setRedis [] (refreshKey 7) tokA REFRESH_TOKEN_EXPIRY)
    (refreshKey 7) tokB REFRESH_TOKEN_EXPIRY

/-- Witness for C2 at concrete tokens for user 7 at time 0. -/
theorem C2_single_valid_refresh_token_witness :
    getRedis cacheAB (refreshKey 7) = some tokB ∧
    (refreshHandler cacheAB (some (.jwt tokA)) 0).response =
      ⟨401, false, "Invalid or expired refresh token", none⟩ ∧
    (refreshHandler cacheAB (some (.jwt tokB)) 0).response =
      ⟨200, true, "Token refreshed successfully", none⟩ :=
  C2_single_valid_refresh_token [] 7 tokA tokB 0 rfl (by decide) rfl (by decide)
    rfl rfl (by decide)

/-- C3: after a successful logout for a user, the `refresh_token:<uid>`
cache entry is gone, and a refresh with the old — still signature-valid,
unexpired — refresh token fails with the 401 credential response
specifically because the cache lookup returns no entry (the signature
verification itself still succeeds). -/
theorem C3_logout_invalidates_refresh (cache : Cache) (uid : Nat)
    (access oldRefresh : Token) (now : Nat)
    (hsA : access.sig = ⟨jwtConfig.secret, access.payload, access.exp⟩)
    (heA : now < access.exp)
    (huA : access.payload.userId = uid)
    (hsR : oldRefresh.sig = ⟨jwtConfig.refreshSecret, oldRefresh.payload, oldRefresh.exp⟩)
    (heR : now < oldRefresh.exp)
    (huR : oldRefresh.payload.userId = uid) :
    (logoutHandler cache (some (.bearer (.jwt access))) now).response =
      ⟨200, true, "Logout successful", none⟩ ∧
    getRedis (logoutHandler cache (some (.bearer (.jwt access))) now).cache
      (refreshKey uid) = none ∧
    jwtVerify oldRefresh jwtConfig.refreshSecret now = .ok oldRefresh.payload ∧
    (refreshHandler (logoutHandler cache (some (.bearer (.jwt access))) now).cache
        (some (.jwt oldRefresh)) now).response =
      ⟨401, false, "Invalid or expired refresh token", none⟩ := by
  have hver : jwtVerifyBearer (.jwt access) jwtConfig.secret now = .ok access.payload := by
    simp [jwtVerifyBearer, jwtVerify_ok access _ now hsA heA]
  have hcache : (logoutHandler cache (some (.bearer (.jwt access))) now).cache =
      deleteRedis cache (refreshKey uid) := by
    simp [logoutHandler, hver, huA]
  have hmiss := getRedis_deleteRedis_self cache (refreshKey uid)
  refine ⟨by simp [logoutHandler, hver], ?_, jwtVerify_ok _ _ _ hsR heR, ?_⟩
  · rw [hcache]; exact hmiss
  · rw [hcache]
    simp only [refreshHandler, jwtVerify_ok oldRefresh _ now hsR heR, huR, hmiss]

/-- An access token for user 7 expiring at t=100. -/
def accessTok : Token := jwtSign claimsAlice jwtConfig.secret 100

/-- Witness for C3: user 7 holds refresh token `tokA` in the cache, logs
out with a valid access token at time 0, and the subsequent refresh with
`tokA` is rejected while its signature still verifies. -/
theorem C3_logout_invalidates_refresh_witness :
    (logoutHandler [(refreshKey 7, tokA)] (some (.bearer (.jwt accessTok))) 0).response =
      ⟨200, true, "Logout successful", none⟩ ∧
    getRedis (logoutHandler [(refreshKey 7, tokA)] (some (.bearer (.jwt accessTok))) 0).cache
      (refreshKey 7) = none ∧
    jwtVerify tokA jwtConfig.refreshSecret 0 = .ok tokA.payload ∧
    (refreshHandler (logoutHandler [(refreshKey 7, tokA)]
        (some (.bearer (.jwt accessTok))) 0).cache (some (.jwt tokA)) 0).response =
      ⟨401, false, "Invalid or expired refresh token", none⟩ :=
  C3_logout_invalidates_refresh [(refreshKey 7, tokA)] 7 accessTok tokA 0
    rfl (by decide) rfl rfl (by decide) rfl

/-! ### Claims about the authentication middleware and the token issuer -/

/-- C4 (code bug evidence): the logout endpoint does NOT convert every
credential failure to a 401 — its `try` block has no distinct handling
for `jwt.verify` failures, so a malformed bearer token and an expired
(signature-valid) bearer token both fall into the catch-all and are
answered with 500 "Failed to logout", contradicting the documented
401 "No token provided or invalid token" response of the endpoint. -/
theorem C4_logout_credential_failure_gives_500 :
    (logoutHandler [] (some (.bearer (.malformed "not-a-jwt"))) 0).response =
      ⟨500, false, "Failed to logout", none⟩ ∧
    (logoutHandler [] (some (.bearer (.jwt (jwtSign claimsAlice jwtConfig.secret 5)))) 10).response =
      ⟨500, false, "Failed to logout", none⟩ := by
  constructor <;> rfl

/-- C5: a token whose signature is valid under the expected access secret
but whose expiry has passed is rejected by `authenticateToken` with the
distinct 401 "Token expired" response, never with 401 "Invalid token". -/
theorem C5_expired_vs_invalid_distinguished (db : Db) (t : Token) (now : Nat)
    (hsig : t.sig = ⟨jwtConfig.secret, t.payload, t.exp⟩)
    (hexp : t.exp ≤ now) :
    authenticateToken db (some (.bearer (.jwt t))) now =
      .respond ⟨401, false, "Token expired", none⟩ ∧
    authenticateToken db (some (.bearer (.jwt t))) now ≠
      .respond ⟨401, false, "Invalid token", none⟩ := by
  have hver : jwtVerify t jwtConfig.secret now = .error .tokenExpiredError := by
    simp [jwtVerify, hsig, Nat.not_lt.mpr hexp]
  have h : authenticateToken db (some (.bearer (.jwt t))) now =
      .respond ⟨401, false, "Token expired", none⟩ := by
    simp [authenticateToken, jwtVerifyBearer, hver]
  exact ⟨h, by rw [h]; simp⟩

/-- Witness for C5: an access token for user 7 that expired at t=100,
checked at t=200. -/
theorem C5_expired_vs_invalid_distinguished_witness :
    authenticateToken ⟨[], [], []⟩ (some (.bearer (.jwt accessTok))) 200 =
      .respond ⟨401, false, "Token expired", none⟩ ∧
    authenticateToken ⟨[], [], []⟩ (some (.bearer (.jwt accessTok))) 200 ≠
      .respond ⟨401, false, "Invalid token", none⟩ :=
  C5_expired_vs_invalid_distinguished ⟨[], [], []⟩ accessTok 200 rfl (by decide)

/-- C6: for every identity claim, `generateTokenPair` followed by
immediate verification of the access token with the access secret and of
the refresh token with the refresh secret both succeed and return the
identity claim unchanged. -/
theorem C6_token_pair_round_trip (userId : Nat) (email username : String) (now : Nat) :
    verifyAccessToken (generateTokenPair userId email username now).accessToken now =
      .ok ⟨userId, email, username⟩ ∧
    verifyRefreshToken (generateTokenPair userId email username now).refreshToken now =
      .ok ⟨userId, email, username⟩ := by
  constructor
  · have h := jwtVerify_ok (generateTokenPair userId email username now).accessToken
      jwtConfig.secret now rfl (by simp [generateTokenPair, generateAccessToken, jwtSign, jwtConfig])
    simp only [verifyAccessToken, h]
    rfl
  · have h := jwtVerify_ok (generateTokenPair userId email username now).refreshToken
      jwtConfig.refreshSecret now rfl
      (by simp [generateTokenPair, generateRefreshToken, jwtSign, jwtConfig])
    simp only [verifyRefreshToken, h]
    rfl

/-! ### Claims about the CSRF guard -/

/-- C7: a mutating request carrying a bearer Authorization header passes
the CSRF guard (`next`) for every cookie/header state — the guard never
reaches the cookie/header checks. (The result holds for every method:
safe methods are exempted even earlier.) -/
theorem C7_bearer_exempt_from_csrf (method : String) (s : String)
    (cookieToken headerToken : Option String)
    (hb : strStartsWith s "Bearer " = true) :
    csrfProtection method (some s) cookieToken headerToken = .next := by
  unfold csrfProtection
  by_cases hm : safeMethods.contains method = true
  · rw [if_pos hm]
  · rw [if_neg hm, if_pos (show isBearerHeader (some s) = true from hb)]

/-- Witness for C7: a POST with a bearer header and a mismatched
cookie/header pair still passes. -/
theorem C7_bearer_exempt_from_csrf_witness :
    csrfProtection "POST" (some "Bearer abc") (some "x") none = .next :=
  C7_bearer_exempt_from_csrf "POST" "Bearer abc" (some "x") none (by decide)

/-- C8 counterexample: on a mutating non-bearer request, a cookie token
and header token that are both present and byte-for-byte equal — both the
empty string — do NOT pass: JavaScript truthiness treats the empty string
as missing, so the guard answers 403 `CSRF_MISSING`; likewise a present
empty cookie with a present non-empty header yields `CSRF_MISSING`, not
the `CSRF_INVALID` the claim assigns to present-but-unequal pairs. -/
theorem C8_counterexample :
    csrfProtection "POST" none (some "") (some "") =
      .respond ⟨403, false, "CSRF token missing", some "CSRF_MISSING"⟩ ∧
    csrfProtection "POST" none (some "") (some "x") =
      .respond ⟨403, false, "CSRF token missing", some "CSRF_MISSING"⟩ := by
  constructor <;> rfl

/-- The C8 claim amended no further than the counterexample forces:
"present" must be read as "present and non-empty" (an empty cookie or
header value is treated as missing).  This definition follows the amended
words of the amended claim; the theorem below proves the guard refines it. -/
def csrfDecisionSpec (cookieToken headerToken : Option String) : CsrfOutcome :=
  match cookieToken, headerToken with
  | some c, some h =>
    if c = "" ∨ h = "" then
      .respond ⟨403, false, "CSRF token missing", some "CSRF_MISSING"⟩
    else if c = h then .next
    else .respond ⟨403, false, "CSRF token mismatch", some "CSRF_INVALID"⟩
  | _, _ => .respond ⟨403, false, "CSRF token missing", some "CSRF_MISSING"⟩

/-- C8 (amended): for every mutating, non-bearer request, the CSRF guard
decides exactly as the amended claim says: both tokens present, non-empty
and byte-for-byte equal passes; an absent or empty cookie or header fails
403 `CSRF_MISSING`; both present and non-empty but unequal fails 403
`CSRF_INVALID`. -/
theorem C8_amended_double_submit_decision (method : String)
    (authHeader cookieToken headerToken : Option String)
    (hm : safeMethods.contains method = false)
    (hb : isBearerHeader authHeader = false) :
    csrfProtection method authHeader cookieToken headerToken =
      csrfDecisionSpec cookieToken headerToken := by
  unfold csrfProtection csrfDecisionSpec
  simp only [hm, hb, Bool.false_eq_true, if_false]
  cases cookieToken with
  | none => simp [truthy]
  | some c =>
    cases headerToken with
    | none => simp [truthy]
    | some h =>
      by_cases hc : c = ""
      · simp [truthy, hc]
      · by_cases hh : h = ""
        · simp [truthy, hc, hh]
        · by_cases he : c = h
          · simp [truthy, hc, hh, he]
          · simp [truthy, hc, hh, he]

/-- Witness for C8 (amended): a matching non-empty pair on a mutating
non-bearer request passes. -/
theorem C8_amended_double_submit_decision_witness :
    csrfProtection "POST" none (some "tok") (some "tok") = .next := by
  have h := C8_amended_double_submit_decision "POST" none (some "tok") (some "tok")
    (by decide) rfl
  rw [h]
  rfl

/-! ### Claim about the login endpoint -/

/-- C10: the two failing login runs — unknown email, and known email with
a wrong password — return the identical 401 response, and both leave the
database (hence `last_login`) and the session cache unchanged: no
refresh-token entry is written. -/
theorem C10_login_failures_indistinguishable (db : Db) (cache : Cache)
    (e1 p1 e2 p2 : String) (now : Nat)
    (h1 : findUserByEmail db e1 = none)
    (u : UserRow) (h2 : findUserByEmail db e2 = some u)
    (h3 : bcryptCompare p2 u.passwordHash = false) :
    loginHandler db cache e1 p1 now =
      ⟨⟨401, false, "Invalid email or password", none⟩, none, db, cache⟩ ∧
    loginHandler db cache e2 p2 now =
      ⟨⟨401, false, "Invalid email or password", none⟩, none, db, cache⟩ := by
  constructor
  · simp [loginHandler, h1]
  · simp [loginHandler, h2, h3]

/-- The registered user record behind the C10 witness. -/
def aliceRow : UserRow :=
  { userId := 1, username := "alice", email := "alice@x.com"
  , passwordHash := bcryptHash "P@ssw0rd1", displayName := "Alice"
  , avatarUrl := "", lastLogin := none }

/-- Database holding only `aliceRow`. -/
def dbLogin : Db := { users := [aliceRow], projects := [], collaborators := [] }

/-- Witness for C10: a login for an unknown email and a login for alice
with the wrong password produce identical failures and leave state
untouched. -/
theorem C10_login_failures_indistinguishable_witness :
    loginHandler dbLogin [] "bob@x.com" "whatever" 0 =
      ⟨⟨401, false, "Invalid email or password", none⟩, none, dbLogin, []⟩ ∧
    loginHandler dbLogin [] "alice@x.com" "wrong" 0 =
      ⟨⟨401, false, "Invalid email or password", none⟩, none, dbLogin, []⟩ :=
  C10_login_failures_indistinguishable dbLogin [] "bob@x.com" "whatever"
    "alice@x.com" "wrong" 0 (by decide) aliceRow (by decide) (by decide)

end CollabDev
